import Mathlib

/-
Verification development for the Kismet capture data-source controller
(kis_datasource.cc): the framed control protocol codec, the pending-command
registry, the error/retry state machine, the interface-definition parser and
the payload decoders.  The definitions below are shallow embeddings of the
functions in kis_datasource.cc; collaborators that live outside the given
sources (the wire structs of simple_datasource_proto.h, the checksum and
string utilities, the uuid class, the timer service) are modelled from the
specification and carry a doc comment saying so.
-/

set_option maxRecDepth 40000

namespace Kismet

/-! ## Byte-level helpers for the frame codec -/

/-- Modelled from the spec: multi-byte integers are big-endian on the wire
(kis_hton32 of endian_magic.h, which is not among the given sources).
Serializes the low 32 bits of a natural number as four big-endian bytes. -/
def be32 (n : Nat) : List Nat :=
  [n / 16777216 % 256, n / 65536 % 256, n / 256 % 256, n % 256]

/-- Modelled from the spec: big-endian read of a 32-bit field (kis_ntoh32),
reading four bytes of a buffer at offset i; bytes beyond the end read as 0. -/
def rd32at (buf : List Nat) (i : Nat) : Nat :=
  buf.getD i 0 * 16777216 + buf.getD (i + 1) 0 * 65536 +
    buf.getD (i + 2) 0 * 256 + buf.getD (i + 3) 0

/-- Reads n bytes of a buffer starting at offset i (memcpy out of the peeked
frame); bytes beyond the end of the buffer read as 0. -/
def slice (buf : List Nat) (i n : Nat) : List Nat :=
  (List.range n).map (fun j => buf.getD (i + j) 0)

/-- Modelled from the spec: bytewise ASCII lowercase, as StrLower of util.cc
(not among the given sources) applies tolower to each byte. -/
def tolowerByte (b : Nat) : Nat :=
  if 65 ≤ b ∧ b ≤ 90 then b + 32 else b

/-- Reads a C string out of a fixed-size field: the bytes up to the first NUL
(snprintf with a %s format stops at the terminator). -/
def cstr (l : List Nat) : List Nat :=
  l.takeWhile (fun b => decide (b ≠ 0))

/-- Writing a C string into a 16-byte field with snprintf(dst, 16, ...): at most
15 bytes of the source are copied, then one NUL; the remaining bytes of the
freshly allocated field keep their unwritten value, here the parameter junk. -/
def snprintf16 (s : List Nat) (junk : Nat) : List Nat :=
  let t := (cstr s).take 15
  t ++ [0] ++ List.replicate (15 - t.length) junk

/-- Replaces the four bytes at offset 4 (the checksum field of the envelope)
with the big-endian encoding of ck. -/
def setChecksum (l : List Nat) (ck : Nat) : List Nat :=
  l.take 4 ++ be32 ck ++ l.drop 8

/-- Modelled from the spec: the Adler-32 checksum named in section 6, folded
over the byte list (Adler32Checksum of util.cc is not among the given
sources). -/
def adler32Go : List Nat → Nat → Nat → Nat
  | [], a, b => b * 65536 + a
  | c :: rest, a, b => adler32Go rest ((a + c) % 65521) ((b + (a + c) % 65521) % 65521)

/-- Modelled from the spec: Adler-32 over a full buffer, initial state 1 / 0. -/
def adler32 (l : List Nat) : Nat := adler32Go l 1 0

/-- Modelled from the spec: the protocol signature constant
KIS_CAP_SIMPLE_PROTO_SIG of simple_datasource_proto.h, a fixed 32-bit value. -/
def SIGNATURE : Nat := 0xDECAFBAD

/-- Modelled from the spec: sizeof(simple_cap_proto_t), the envelope header
signature, checksum, sequence, 16-byte type, length, num_kv = 36 bytes
(simple_datasource_proto.h is not among the given sources). -/
def ENVSZ : Nat := 36

/-- Modelled from the spec: sizeof(simple_cap_proto_kv_h_t), the keyed-object
header.  Section 4.1 gives the per-object overhead as length = envelope +
the sum of (24 + obj_size), so the header occupies 24 bytes: the 16-byte key
at offset 0, the 32-bit obj_size at offset 16, and the object bytes at
offset 24 (simple_datasource_proto.h is not among the given sources). -/
def KVHSZ : Nat := 24

/-! ## Generic association maps (std::map with string keys, last insert wins) -/

/-- Insert-or-assign on an association list, the behaviour of operator[] on a
std::map followed by assignment: an existing key keeps its position with the
new value, a new key is appended. -/
def aput {κ ν : Type} [DecidableEq κ] : List (κ × ν) → κ → ν → List (κ × ν)
  | [], k, v => [(k, v)]
  | p :: r, k, v => if p.1 = k then (k, v) :: r else p :: aput r k v

/-- Lookup on an association list (std::map find). -/
def aget {κ ν : Type} [DecidableEq κ] : List (κ × ν) → κ → Option ν
  | [], _ => none
  | p :: r, k => if p.1 = k then some p.2 else aget r k

/-! ## The outgoing encoder: KisDatasource::write_packet (lines 1130-1219)

A keyed object on the outgoing side is a key together with its payload bytes;
write_packet receives the map as a list in the iteration order of the C++
std::map. -/

/-- Embeds KisDatasource::write_packet.  The C++ function fills a local vector
proto_kvpairs with freshly built kv buffers but never appends to it: the loop
at lines 1143-1157 only accumulates kvpair_len.  The emitted frame therefore
carries num_kv = proto_kvpairs.size() = 0 and the kvpair_len bytes of its data
region are never written (the buffer comes from new char[] and keeps the
unwritten value junk).  The length field still counts the envelope plus the
sum of (header + obj_size) over the input map, the checksum is computed over
the buffer with the checksum field zeroed, and the assigned sequence number is
returned.  Result: (emitted frame bytes, returned sequence number). -/
def write_packet (cmd : List Nat) (kvpairs : List (List Nat × List Nat))
    (seq : Nat) (junk : Nat) : List Nat × Nat :=
  let proto_kvpairs : List (List Nat × List Nat) := []
  let kvpair_len := (kvpairs.map (fun p => KVHSZ + p.2.length)).sum
  let pack_len := ENVSZ + kvpair_len
  let body0 : List Nat :=
    be32 SIGNATURE ++ be32 0 ++ be32 (seq % 4294967296) ++ snprintf16 cmd junk ++
      be32 (pack_len % 4294967296) ++ be32 proto_kvpairs.length ++
      List.replicate kvpair_len junk
  (setChecksum body0 (adler32 body0), seq % 4294967296)

/-! ## The incoming decoder: KisDatasource::BufferAvailable (lines 221-314) -/

/-- Result of one decode attempt on the buffered bytes: not enough bytes yet,
an invalid frame (bad signature or checksum, which trips trigger_error), or
one decoded frame as (type tag, keyed-object map). -/
inductive DecodeResult
  | needMore
  | invalid
  | frame (ty : List Nat) (kvs : List (List Nat × List Nat))
  deriving DecidableEq

/-- Embeds the kv-extraction loop of BufferAvailable (lines 290-303).  The
records live in the data region starting at byte ENVSZ of the frame.  Each
iteration reads the record at the current offset: the lowercased NUL-stripped
key from the first 16 bytes, obj_size at offset 16, and obj_size object bytes
at offset KVHSZ; the key maps to the object bytes, duplicates overwriting
earlier entries.  The C++ then ASSIGNS data_offt = sizeof(header) + obj_sz
instead of accumulating it, which this model reproduces faithfully. -/
def extractKvLoop (buf : List Nat) : Nat → Nat → List (List Nat × List Nat) →
    List (List Nat × List Nat)
  | 0, _, m => m
  | n + 1, off, m =>
      let key := (cstr (slice buf (ENVSZ + off) 16)).map tolowerByte
      let sz := rd32at buf (ENVSZ + off + 16)
      let obj := slice buf (ENVSZ + off + KVHSZ) sz
      extractKvLoop buf n (KVHSZ + sz) (aput m key obj)

/-- Embeds KisDatasource::BufferAvailable on the peeked bytes buf.  Checks the
buffered amount against the envelope size, the signature, the length field
against the available bytes, and the Adler-32 checksum computed over the frame
with its checksum field zeroed; on success it walks num_kv keyed-object
records with extractKvLoop and yields the frame type (the NUL-terminated
string read from the 16-byte type field) with the keyed-object map. -/
def BufferAvailable (buf : List Nat) : DecodeResult :=
  if buf.length < ENVSZ then .needMore
  else if rd32at buf 0 ≠ SIGNATURE then .invalid
  else
    let frame_sz := rd32at buf 28
    if frame_sz > buf.length then .needMore
    else
      let frame_checksum := rd32at buf 4
      let calc_checksum := adler32 ((setChecksum buf 0).take frame_sz)
      if calc_checksum ≠ frame_checksum then .invalid
      else
        let n := rd32at buf 32
        .frame (cstr (slice buf 12 16)) (extractKvLoop buf n 0 [])

/-- Modelled from the spec: the section 4.1 encode procedure with the
keyed-object list actually packed, used to build well-formed incoming frames
for the decoder.  Lays each keyed object out as its NUL-padded 16-byte key,
the big-endian obj_size at offset 16, and the object bytes at offset 24,
concatenated without padding after the 36-byte envelope, with the Adler-32
checksum written over the buffer computed with the checksum field zeroed. -/
def specPackKv (p : List Nat × List Nat) : List Nat :=
  p.1.take 16 ++ List.replicate (16 - p.1.length) 0 ++ be32 p.2.length ++
    [0, 0, 0, 0] ++ p.2

/-- Modelled from the spec: a complete well-formed frame for a type tag, a
keyed-object list and a sequence number, per the section 4.1 procedure. -/
def specPackFrame (ty : List Nat) (kvs : List (List Nat × List Nat))
    (seq : Nat) : List Nat :=
  let body := (kvs.map specPackKv).flatten
  let pack_len := ENVSZ + body.length
  let b0 := be32 SIGNATURE ++ be32 0 ++ be32 (seq % 4294967296) ++
    (ty.take 16 ++ List.replicate (16 - ty.length) 0) ++
    be32 (pack_len % 4294967296) ++ be32 kvs.length ++ body
  setChecksum b0 (adler32 b0)

/-- Extracts the keyed-object map of a decoded frame (empty for the non-frame
results), for stating properties of BufferAvailable. -/
def decodedKvs : DecodeResult → List (List Nat × List Nat)
  | .frame _ m => m
  | _ => []

/-- True exactly on a decoded frame. -/
def isFrame : DecodeResult → Bool
  | .frame _ _ => true
  | _ => false

/-- The byte string "PROBEDEVICE". -/
def probeCmdBytes : List Nat := [80, 82, 79, 66, 69, 68, 69, 86, 73, 67, 69]

/-- The byte string "DEFINITION". -/
def defKeyBytes : List Nat := [68, 69, 70, 73, 78, 73, 84, 73, 79, 78]

/-- The byte string "definition" (the lowercased key). -/
def defKeyLowerBytes : List Nat := [100, 101, 102, 105, 110, 105, 116, 105, 111, 110]

/-- The byte string "DATA". -/
def dataTyBytes : List Nat := [68, 65, 84, 65]

/-- A well-formed three-record frame: keys "aaa", "bbb", "ccc" with object
sizes 1, 0 and 1.  Records 0, 1, 2 start at data offsets 0, 25 and 49. -/
def c3frame : List Nat :=
  specPackFrame dataTyBytes
    [([97, 97, 97], [1]), ([98, 98, 98], []), ([99, 99, 99], [7])] 5

/-! ## String helpers for the controller model

The controller-level model below abstracts payload bytes and works at the
level of strings, callbacks and registry entries; the byte-exact codec above
is the model of the wire.  String splitting is implemented over the character
list of the string so that every function is structurally recursive. -/

/-- Splits a character list at the first occurrence of c: the part before and
the part after, or none when c does not occur (string::find of the C++). -/
def breakAtChar (c : Char) : List Char → Option (List Char × List Char)
  | [] => none
  | x :: xs =>
      if x = c then some ([], xs)
      else (breakAtChar c xs).map (fun p => (x :: p.1, p.2))

/-- Splits a character list on every occurrence of c (comma-separation of the
options tail). -/
def splitOnCh (c : Char) : List Char → List (List Char)
  | [] => [[]]
  | x :: xs =>
      let r := splitOnCh c xs
      if x = c then [] :: r
      else
        match r with
        | [] => [[x]]
        | y :: ys => (x :: y) :: ys

/-- Modelled from the spec: StrLower of util.cc (not among the given sources);
ASCII lowercase of each character of a string. -/
def strLower (s : String) : String :=
  String.mk (s.data.map (fun c =>
    if 65 ≤ c.toNat ∧ c.toNat ≤ 90 then Char.ofNat (c.toNat + 32) else c))

/-- Modelled from the spec: StringToOpts of configfile.cc (not among the given
sources), per section 4.6 the options tail is a comma-separated list of
key=value pairs; a piece without an equals sign is a syntactic failure and the
whole parse reports failure (a negative return in the C++). -/
def stringToOpts (s : String) : Option (List (String × String)) :=
  (splitOnCh ',' s.data).mapM (fun piece =>
    (breakAtChar '=' piece).map (fun p => (String.mk p.1, String.mk p.2)))

/-- Modelled from the spec: StringToBool of util.cc (not among the given
sources); the retry option is a boolean with a default for unparseable text. -/
def stringToBool (s : String) (dflt : Bool) : Bool :=
  if s = "true" ∨ s = "1" ∨ s = "t" then true
  else if s = "false" ∨ s = "0" ∨ s = "f" then false
  else dflt

/-- True on an ASCII hexadecimal digit. -/
def isHexDigit (c : Char) : Bool :=
  (48 ≤ c.toNat ∧ c.toNat ≤ 57) ∨ (97 ≤ c.toNat ∧ c.toNat ≤ 102) ∨
    (65 ≤ c.toNat ∧ c.toNat ≤ 70)

/-- Modelled from the spec: the uuid class (not among the given sources); a
string is parseable as a UUID when it has the canonical 36-character
8-4-4-4-12 hexadecimal form with dashes at positions 8, 13, 18 and 23.  The
uuid constructor sets its error flag exactly when this fails. -/
def validUuid (s : String) : Bool :=
  s.data.length = 36 ∧ (List.range 36).all (fun i =>
    if i = 8 ∨ i = 13 ∨ i = 18 ∨ i = 23 then s.data.getD i ' ' = '-'
    else isHexDigit (s.data.getD i ' '))

/-! ## The controller state

Tracked fields (registered in register_fields, lines 1401-1439) are plain
record fields here; trackedelement.cc implements them as stores into typed
cells, which this abstraction preserves.  Completion callbacks are observed
through an event log: the model appends one event per callback invocation and
one event per frame handed to the transport write path, so completion counts
and emitted bytes are properties of the log.  Floating-point values (the hop
rate) are carried opaquely; no modelled code path computes with them. -/

/-- The capability flags of the source builder (the prototype). -/
structure Builder where
  list_capable : Bool
  probe_capable : Bool
  local_capable : Bool
  tune_capable : Bool
  deriving DecidableEq

/-- Which completion callback a pending command carries; the C++
tracked_command stores four nullable callbacks of which exactly one is set by
the send_command helpers. -/
inductive CbKind
  | listK
  | probeK
  | openK
  | confK
  deriving DecidableEq

/-- A pending command of the registry: caller transaction, callback kind and
the optional timer id (-1 when none, as in the C++ constructor). -/
structure TrackedCommand where
  transaction : Nat
  kind : CbKind
  timer_id : Int
  deriving DecidableEq

/-- Observable events: completion invocations (the list completion receives
the number of interfaces handed to it), a frame handed to the transport write
path, a log message, and transport teardown calls. -/
inductive Event
  | cbList (tx : Nat) (numIfaces : Nat)
  | cbProbe (tx : Nat) (ok : Bool) (msg : String)
  | cbOpen (tx : Nat) (ok : Bool) (msg : String)
  | cbConf (tx : Nat) (ok : Bool) (msg : String)
  | wire (cmd : String)
  | logMsg (msg : String)
  | transportError (reason : String)
  | transportClose (reason : String)
  deriving DecidableEq

/-- The controller state of KisDatasource: builder, tracked fields, the
interface-definition option dictionary (which the C++ never clears between
parses), the pending-command registry, the sequence counter, the reopen timer
bookkeeping, the transport binding and the event log.  Timers are (id, delay
in seconds); the only registered timer in the modelled code is the reopen
timer of handle_source_error. -/
structure Ctrl where
  builder : Builder
  source_name : String
  source_interface : String
  source_definition : String
  source_channel : String
  source_uuid : Option String
  local_uuid : Bool
  source_definition_opts : List (String × String)
  source_retry : Bool
  source_retry_attempts : Nat
  source_error : Bool
  source_error_reason : String
  command_ack_map : List (Nat × TrackedCommand)
  next_cmd_sequence : Nat
  error_timer_id : Int
  timers : List (Nat × Nat)
  next_timer_id : Nat
  has_ringbuf : Bool
  events : List Event
  deriving DecidableEq

/-- Appends one observable event to the log. -/
def emit (st : Ctrl) (e : Event) : Ctrl :=
  { st with events := st.events ++ [e] }

/-- Removes the timer with the given id from the timer service
(Timetracker::RemoveTimer). -/
def removeTimer (st : Ctrl) (i : Int) : Ctrl :=
  { st with timers := st.timers.filter (fun t => decide ((t.1 : Int) ≠ i)) }

/-- Result of an operation that can run into the invalidated-iterator access
inside cancel_all_commands: ok carries the final state, fault carries the
state reached when the undefined access happens. -/
inductive CtrlR
  | ok (st : Ctrl)
  | fault (st : Ctrl)
  deriving DecidableEq

/-- The state carried by either result. -/
def stOf : CtrlR → Ctrl
  | .ok s => s
  | .fault s => s

/-- True exactly on an ok result. -/
def isOkR : CtrlR → Bool
  | .ok _ => true
  | .fault _ => false

/-- True exactly on a fault result. -/
def isFaultR : CtrlR → Bool
  | .ok _ => false
  | .fault _ => true

/-- The failure invocation of the one callback a pending command carries, as
performed by cancel_command (lines 414-423): the list completion receives an
empty interface vector, the others receive false and the error text. -/
def failureCb (c : TrackedCommand) (err : String) : Event :=
  match c.kind with
  | .listK => .cbList c.transaction 0
  | .probeK => .cbProbe c.transaction false err
  | .openK => .cbOpen c.transaction false err
  | .confK => .cbConf c.transaction false err

/-- Embeds KisDatasource::cancel_command (lines 409-433): when the sequence is
registered, invoke its completion with a failure, remove its timer when one is
set, and erase the registry entry; unknown sequences are ignored. -/
def cancel_command (st : Ctrl) (seq : Nat) (err : String) : Ctrl :=
  match aget st.command_ack_map seq with
  | none => st
  | some c =>
      let st1 := emit st (failureCb c err)
      let st2 := if c.timer_id > -1 then removeTimer st1 c.timer_id else st1
      { st2 with
        command_ack_map := st2.command_ack_map.filter (fun p => decide (p.1 ≠ seq)) }

/-- The smallest registered sequence number: map.begin() of the ordered C++
std::map. -/
def minKey : List (Nat × TrackedCommand) → Option Nat
  | [] => none
  | (k, _) :: r =>
      match minKey r with
      | none => some k
      | some m => some (min k m)

/-- Embeds KisDatasource::cancel_all_commands (lines 435-442).  The C++ reads
the iterator i = command_ack_map.begin() ONCE; the loop body
cancel_command(i->first, in_error) erases exactly the element i points to, and
the loop then re-tests i != end() and re-reads i->first without ever
re-fetching begin().  After the first iteration every access to i is an access
to an invalidated iterator, which the model reports as a fault carrying the
state reached at that point: with a non-empty registry exactly the command
with the smallest sequence number has been cancelled. -/
def cancel_all_commands (st : Ctrl) (err : String) : CtrlR :=
  match minKey st.command_ack_map with
  | none => .ok st
  | some k => .fault (cancel_command st k err)

/-- Embeds KisDatasource::handle_source_error (lines 1447-1482): with retry
disabled only a message is logged; with retry enabled the failure counter is
incremented, a notice is logged, a still-pending reopen timer is removed, and
one new reopen timer is registered at 5 seconds whose callback calls
open_interface on the stored source definition with transaction 0 and no
callback. -/
def handle_source_error (st : Ctrl) : Ctrl :=
  if !st.source_retry then
    emit st (.logMsg "source error, not configured to retry")
  else
    let st1 := { st with source_retry_attempts := st.source_retry_attempts + 1 }
    let st2 := emit st1 (.logMsg "source error, reopening in 5 seconds")
    let st3 := if st2.error_timer_id > 0 then removeTimer st2 st2.error_timer_id else st2
    { st3 with
      timers := st3.timers ++ [(st3.next_timer_id, 5)],
      error_timer_id := (st3.next_timer_id : Int),
      next_timer_id := st3.next_timer_id + 1 }

/-- Embeds KisDatasource::trigger_error (lines 321-333): cancel every pending
command, report the error to the ringbuffer handler when one is bound, and set
the error flag and reason.  A fault inside cancel_all_commands aborts the
remaining steps, as the C++ never reaches them. -/
def trigger_error_core (st : Ctrl) (err : String) : CtrlR :=
  match cancel_all_commands st err with
  | .fault s => .fault s
  | .ok s1 =>
      let s2 := if s1.has_ringbuf then emit s1 (.transportError err) else s1
      .ok { s2 with source_error := true, source_error_reason := err }

/-- Modelled from the spec: the call linking the error path to the retry
handler is not among the given sources (handle_source_error has no caller in
kis_datasource.cc); section 4.5 specifies that trigger_error, after failing
the pending commands and tearing down the transport, schedules a reopen when
retry is enabled.  This composes the embedded trigger_error with the embedded
handle_source_error. -/
def trigger_error (st : Ctrl) (err : String) : CtrlR :=
  match trigger_error_core st err with
  | .fault s => .fault s
  | .ok s => .ok (handle_source_error s)

/-! ## Interface-definition parsing (lines 335-398) -/

/-- The retry-option step at the end of parse_interface_definition (lines
392-395), reading the accumulated option dictionary. -/
def parseRetryOpt (st : Ctrl) : Bool × Ctrl :=
  match aget st.source_definition_opts "retry" with
  | some r => (true, { st with source_retry := stringToBool r true })
  | none => (true, st)

/-- Embeds KisDatasource::parse_interface_definition.  The locally-defined
UUID flag is reset first.  Without a colon the whole definition is interface
and name.  Otherwise the options tail must parse as comma-separated key=value
pairs; the parsed options are inserted with lowercased keys into
source_definition_opts, which is NOT cleared first and therefore accumulates
entries across parses.  The name, uuid and retry options are then read from
the accumulated dictionary; an unparseable uuid value fails the parse.  The
result is (success, state); on failure the mutations already made persist,
exactly as in the C++. -/
def parse_interface_definition (st : Ctrl) (defn : String) : Bool × Ctrl :=
  let st0 := { st with local_uuid := false }
  match breakAtChar ':' defn.data with
  | none =>
      (true, { st0 with source_interface := defn, source_name := defn })
  | some (ifc, tl) =>
      let st1 := { st0 with source_interface := String.mk ifc }
      match stringToOpts (String.mk tl) with
      | none => (false, st1)
      | some opts =>
          let m := opts.foldl
            (fun acc p => aput acc (strLower p.1) p.2) st1.source_definition_opts
          let st2 := { st1 with source_definition_opts := m }
          let st3 := { st2 with
            source_name := (aget m "name").getD st2.source_interface }
          match aget m "uuid" with
          | some u =>
              if validUuid u then
                parseRetryOpt { st3 with source_uuid := some u, local_uuid := true }
              else (false, emit st3 (.logMsg "Invalid UUID"))
          | none => parseRetryOpt st3

/-- The accumulated option dictionary produced by one parse: the dictionary
held before the parse with each option of the new tail inserted under its
lowercased key (lines 363-366); names the dictionary m of
parse_interface_definition so that properties can quantify over arbitrary
decoded options tails. -/
def optsFold (st : Ctrl) (opts : List (String × String)) : List (String × String) :=
  opts.foldl (fun acc p => aput acc (strLower p.1) p.2) st.source_definition_opts

/-! ## Outgoing commands and the public API (lines 68-219, 1221-1399) -/

/-- The controller-level abstraction of write_packet used by the send_command
helpers: with no transport bound it fails; otherwise it consumes the next
sequence number (a 32-bit counter) and hands one frame of the given type to
the transport write path.  Result: (success, assigned sequence, state).  The
byte-exact construction of the frame is the write_packet model above. -/
def write_packet_ctrl (st : Ctrl) (cmd : String) : Bool × Nat × Ctrl :=
  if !st.has_ringbuf then (false, 0, st)
  else
    let seq := st.next_cmd_sequence % 4294967296
    (true, seq,
      emit { st with next_cmd_sequence := (st.next_cmd_sequence + 1) % 4294967296 }
        (.wire cmd))

/-- Registers a pending command under its sequence number
(command_ack_map[seqno] = cmd in the send_command helpers). -/
def registerCmd (st : Ctrl) (seq tx : Nat) (k : CbKind) : Ctrl :=
  { st with command_ack_map := aput st.command_ack_map seq ⟨tx, k, -1⟩ }

/-- Embeds KisDatasource::send_command_list_interfaces (lines 1221-1247): an
empty kv map, frame type LISTDEVICE; on write failure the callback gets an
empty list, on success the pending command is registered. -/
def send_command_list_interfaces (st : Ctrl) (tx : Nat) (has_cb : Bool) : Ctrl :=
  match write_packet_ctrl st "LISTDEVICE" with
  | (false, _, s) => if has_cb then emit s (.cbList tx 0) else s
  | (true, seq, s) => registerCmd s seq tx .listK

/-- Embeds KisDatasource::send_command_probe_interface (lines 1249-1278):
frame type PROBEDEVICE with a DEFINITION keyed object. -/
def send_command_probe_interface (st : Ctrl) (tx : Nat) (has_cb : Bool) : Ctrl :=
  match write_packet_ctrl st "PROBEDEVICE" with
  | (false, _, s) =>
      if has_cb then emit s (.cbProbe tx false "unable to generate command frame") else s
  | (true, seq, s) => registerCmd s seq tx .probeK

/-- Embeds KisDatasource::send_command_open_interface (lines 1281-1310):
frame type OPENDEVICE with a DEFINITION keyed object.  Additionally, modelled
from the spec: the original source definition is recorded on the controller
for reuse by the retry reopen (sections 1 and 4.5, reconnect reuses the same
source definition); the call that stores it is not among the given sources. -/
def send_command_open_interface (st : Ctrl) (defn : String) (tx : Nat)
    (has_cb : Bool) : Ctrl :=
  let st0 := { st with source_definition := defn }
  match write_packet_ctrl st0 "OPENDEVICE" with
  | (false, _, s) =>
      if has_cb then emit s (.cbOpen tx false "unable to generate command frame") else s
  | (true, seq, s) => registerCmd s seq tx .openK

/-- Embeds KisDatasource::send_command_set_channel (lines 1312-1341) and
send_command_set_channel_hop (lines 1343-1399): frame type CONFIGURE with a
CHANSET or CHANHOP keyed object; both register a configure completion. -/
def send_command_configure (st : Ctrl) (tx : Nat) (has_cb : Bool) : Ctrl :=
  match write_packet_ctrl st "CONFIGURE" with
  | (false, _, s) =>
      if has_cb then emit s (.cbConf tx false "unable to generate command frame") else s
  | (true, seq, s) => registerCmd s seq tx .confK

/-- Embeds KisDatasource::list_interfaces (lines 68-84): without the list
capability the callback is invoked synchronously with an empty list and
nothing else happens; otherwise the list command is sent. -/
def list_interfaces (st : Ctrl) (tx : Nat) (has_cb : Bool) : Ctrl :=
  if !st.builder.list_capable then
    if has_cb then emit st (.cbList tx 0) else st
  else send_command_list_interfaces st tx has_cb

/-- Embeds KisDatasource::probe_interface (lines 86-102). -/
def probe_interface (st : Ctrl) (_defn : String) (tx : Nat) (has_cb : Bool) : Ctrl :=
  if !st.builder.probe_capable then
    if has_cb then emit st (.cbProbe tx false "Driver not capable of probing") else st
  else send_command_probe_interface st tx has_cb

/-- Embeds KisDatasource::open_interface (lines 104-132): without the
local-capture capability the callback is rejected synchronously; otherwise a
pending reopen timer is removed, the definition is parsed (rejecting with
Malformed source config on failure), and the open command is sent. -/
def open_interface (st : Ctrl) (defn : String) (tx : Nat) (has_cb : Bool) : Ctrl :=
  if !st.builder.local_capable then
    if has_cb then emit st (.cbOpen tx false "Driver does not support direct capture") else st
  else
    let st1 := if st.error_timer_id > 0 then removeTimer st st.error_timer_id else st
    match parse_interface_definition st1 defn with
    | (false, s) =>
        if has_cb then emit s (.cbOpen tx false "Malformed source config") else s
    | (true, s) => send_command_open_interface s defn tx has_cb

/-- Embeds KisDatasource::set_channel (lines 134-146). -/
def set_channel (st : Ctrl) (_channel : String) (tx : Nat) (has_cb : Bool) : Ctrl :=
  if !st.builder.tune_capable then
    if has_cb then emit st (.cbConf tx false "Driver not capable of changing channel") else st
  else send_command_configure st tx has_cb

/-- Embeds KisDatasource::set_channel_hop (lines 148-186; the vector overload
checks the capability and delegates to the element overload, which checks it
again and sends the CONFIGURE command).  The hop rate and channel list flow
opaquely into the CHANHOP payload and are not otherwise inspected. -/
def set_channel_hop (st : Ctrl) (_rate : Int) (_chans : List String) (tx : Nat)
    (has_cb : Bool) : Ctrl :=
  if !st.builder.tune_capable then
    if has_cb then emit st (.cbConf tx false "Driver not capable of changing channel") else st
  else send_command_configure st tx has_cb

/-- The reopen timer callback registered by handle_source_error (lines
1477-1481): open_interface on the stored source definition, transaction 0, no
callback. -/
def fire_reopen (st : Ctrl) : Ctrl :=
  open_interface st st.source_definition 0 false

/-! ## Incoming uuid keyed objects (lines 1005-1017) -/

/-- Embeds KisDatasource::handle_kv_uuid: the object bytes are parsed as a
text UUID; a parse failure trips trigger_error; a parsed UUID is stored as
the source UUID only when the source definition did not define one locally. -/
def handle_kv_uuid (st : Ctrl) (obj : String) : CtrlR :=
  if !validUuid obj then trigger_error st "unable to parse UUID"
  else .ok (if !st.local_uuid then { st with source_uuid := some obj } else st)

/-! ## The GPS payload decoder (lines 865-927) -/

/-- A decoded scalar of the named-map codec: a number (f64 and integer values
carried opaquely on one integer carrier, since no modelled path computes with
them) or a string. -/
inductive MV
  | num (z : Int)
  | str (v : String)
  deriving DecidableEq

/-- Modelled from the spec: the kis_gps_packinfo record the GPS decoder fills
(packet.h is not among the given sources).  Its fields are exactly the ones
handle_kv_gps writes: lat, lon, alt, speed, heading, precision, time and
gpsname; none holds the untouched default.  Per section 9 the record has no
separate fix field. -/
structure GpsInfo where
  lat : Option Int
  lon : Option Int
  alt : Option Int
  speed : Option Int
  heading : Option Int
  precision : Option Int
  time : Option Int
  gpsname : Option String
  deriving DecidableEq

/-- The empty GPS record, every field at its default. -/
def emptyGps : GpsInfo :=
  ⟨none, none, none, none, none, none, none, none⟩

/-- Conversion of a decoded scalar to a number (as double or as int32 of
msgpack); a string throws, which the caller turns into a decode failure. -/
def mvNum : MV → Option Int
  | .num z => some z
  | .str _ => none

/-- Conversion of a decoded scalar to a string. -/
def mvStr : MV → Option String
  | .str v => some v
  | .num _ => none

/-- One optional numeric field step of handle_kv_gps: absent keys leave the
record unchanged, a present non-numeric value fails the decode. -/
def gpsNumField (dict : List (String × MV)) (k : String) (g : GpsInfo)
    (set : GpsInfo → Int → GpsInfo) : Option GpsInfo :=
  match aget dict k with
  | none => some g
  | some v => (mvNum v).map (set g)

/-- Embeds KisDatasource::handle_kv_gps on the decoded named map.  Every field
is optional; in the source the value of the fix key is written into the
precision field of the record (line 904: gpsinfo->precision = ...as int32),
which this model reproduces faithfully; none is the thrown-decode-error
path, which in the source trips trigger_error. -/
def handle_kv_gps (dict : List (String × MV)) : Option GpsInfo := do
  let g0 := emptyGps
  let g1 ← gpsNumField dict "lat" g0 (fun g z => { g with lat := some z })
  let g2 ← gpsNumField dict "lon" g1 (fun g z => { g with lon := some z })
  let g3 ← gpsNumField dict "alt" g2 (fun g z => { g with alt := some z })
  let g4 ← gpsNumField dict "speed" g3 (fun g z => { g with speed := some z })
  let g5 ← gpsNumField dict "heading" g4 (fun g z => { g with heading := some z })
  let g6 ← gpsNumField dict "precision" g5 (fun g z => { g with precision := some z })
  let g7 ← gpsNumField dict "fix" g6 (fun g z => { g with precision := some z })
  let g8 ← gpsNumField dict "time" g7 (fun g z => { g with time := some z })
  match aget dict "name" with
  | none => some g8
  | some v => (mvStr v).map (fun s => { g8 with gpsname := some s })

/-! ## Concrete states used by the evaluation theorems -/

/-- A freshly constructed controller: all capabilities, no pending commands,
no timers (error_timer_id = -1 as in the constructor, line 57), a bound
transport, empty log. -/
def baseCtrl : Ctrl where
  builder := ⟨true, true, true, true⟩
  source_name := ""
  source_interface := ""
  source_definition := ""
  source_channel := ""
  source_uuid := none
  local_uuid := false
  source_definition_opts := []
  source_retry := false
  source_retry_attempts := 0
  source_error := false
  source_error_reason := ""
  command_ack_map := []
  next_cmd_sequence := 0
  error_timer_id := -1
  timers := []
  next_timer_id := 1
  has_ringbuf := true
  events := []

/-- A controller with two pending commands: sequence 5 carries a probe
completion for transaction 11, sequence 9 an open completion for
transaction 22. -/
def stC4 : Ctrl :=
  { baseCtrl with
    command_ack_map := [(5, ⟨11, .probeK, -1⟩), (9, ⟨22, .openK, -1⟩)],
    source_retry := true }

/-- A controller with two pending commands: sequence 3 carries a configure
completion for transaction 7, sequence 8 a list completion for transaction 2. -/
def stC5 : Ctrl :=
  { baseCtrl with
    command_ack_map := [(3, ⟨7, .confK, -1⟩), (8, ⟨2, .listK, -1⟩)] }

/-- A controller whose builder lacks every capability. -/
def c7st : Ctrl := { baseCtrl with builder := ⟨false, false, false, false⟩ }

/-- A valid UUID supplied in a source definition. -/
def c8u1 : String := "00000000-0000-0000-0000-000000000001"

/-- A different valid UUID received later on the wire. -/
def c8u2 : String := "ffffffff-ffff-ffff-ffff-ffffffffffff"

/-- The source definition carrying the uuid option c8u1. -/
def c8def1 : String := "wlan0:uuid=00000000-0000-0000-0000-000000000001"

/-- The controller after opening with the uuid-carrying definition c8def1. -/
def c8st1 : Ctrl := (parse_interface_definition baseCtrl c8def1).2

/-- The same controller after a second parse of a definition whose options
tail has no uuid option. -/
def c8st2 : Ctrl := (parse_interface_definition c8st1 "wlan1:name=mon").2

/-- A valid UUID supplied in the first source definition of the C10 run. -/
def c10u1 : String := "12345678-1234-1234-1234-123456789abc"

/-- A different valid UUID received later on the wire in the C10 run. -/
def c10u2 : String := "abcdefab-cdef-abcd-efab-cdefabcdefab"

/-- The controller after opening with a definition carrying the uuid option
c10u1. -/
def c10st1 : Ctrl :=
  (parse_interface_definition baseCtrl
    "wifi0:uuid=12345678-1234-1234-1234-123456789abc").2

/-- The same controller after parsing a definition with an options tail that
lacks a uuid option. -/
def c10st2 : Ctrl := (parse_interface_definition c10st1 "wifi1:retry=true").2

/-- A controller that had marked its UUID as locally defined by an earlier
open. -/
def c10wst : Ctrl := { baseCtrl with local_uuid := true, source_uuid := some c10u1 }

/-- A retry-enabled controller with no pending commands, ready for the C6
witness. -/
def c6st : Ctrl := { baseCtrl with source_retry := true }

/-- A retry-enabled controller with one pending command: sequence 4 carries a
configure completion for transaction 13. -/
def c6xst : Ctrl :=
  { baseCtrl with
    source_retry := true,
    command_ack_map := [(4, ⟨13, .confK, -1⟩)] }

/-! ## Helper lemmas -/

theorem aget_aput_self {κ ν : Type} [DecidableEq κ] (m : List (κ × ν)) (k : κ) (v : ν) :
    aget (aput m k v) k = some v := by
  induction m with
  | nil => simp [aput, aget]
  | cons p r ih =>
      by_cases h : p.1 = k <;> simp [aput, aget, h, ih]

theorem aget_aput_ne {κ ν : Type} [DecidableEq κ] (m : List (κ × ν)) (k k2 : κ) (v : ν)
    (h : k ≠ k2) : aget (aput m k v) k2 = aget m k2 := by
  induction m with
  | nil => simp [aput, aget, h]
  | cons p r ih =>
      by_cases hp : p.1 = k
      · simp [aput, aget, hp, h, ih]
      · simp [aput, aget, hp, h, ih]

theorem parseRetryOpt_fst (s : Ctrl) : (parseRetryOpt s).1 = true := by
  unfold parseRetryOpt; split <;> rfl

theorem parseRetryOpt_local_uuid (s : Ctrl) :
    (parseRetryOpt s).2.local_uuid = s.local_uuid := by
  unfold parseRetryOpt; split <;> rfl

theorem parseRetryOpt_source_uuid (s : Ctrl) :
    (parseRetryOpt s).2.source_uuid = s.source_uuid := by
  unfold parseRetryOpt; split <;> rfl

theorem parseRetryOpt_timers (s : Ctrl) :
    (parseRetryOpt s).2.timers = s.timers := by
  unfold parseRetryOpt; split <;> rfl

theorem parse_interface_definition_timers (st : Ctrl) (d : String) :
    (parse_interface_definition st d).2.timers = st.timers := by
  unfold parse_interface_definition
  dsimp only
  split
  · rfl
  · split
    · rfl
    · split
      · split
        · rw [parseRetryOpt_timers]
        · rfl
      · rw [parseRetryOpt_timers]

theorem send_command_open_interface_timers (s : Ctrl) (d : String) (tx : Nat)
    (b : Bool) : (send_command_open_interface s d tx b).timers = s.timers := by
  unfold send_command_open_interface write_packet_ctrl
  by_cases h : s.has_ringbuf <;>
    simp [h, emit, registerCmd] <;> split <;> rfl

theorem cancel_command_source_uuid (s : Ctrl) (k : Nat) (e : String) :
    (cancel_command s k e).source_uuid = s.source_uuid := by
  unfold cancel_command
  dsimp only
  split
  · rfl
  · split <;> rfl

theorem handle_source_error_source_uuid (s : Ctrl) :
    (handle_source_error s).source_uuid = s.source_uuid := by
  unfold handle_source_error
  dsimp only
  split
  · rfl
  · split <;> rfl

theorem trigger_error_stOf_source_uuid (s : Ctrl) (e : String) :
    (stOf (trigger_error s e)).source_uuid = s.source_uuid := by
  unfold trigger_error trigger_error_core cancel_all_commands
  cases hm : minKey s.command_ack_map with
  | none =>
      dsimp only [stOf]
      rw [handle_source_error_source_uuid]
      split <;> rfl
  | some k =>
      dsimp only [stOf]
      exact cancel_command_source_uuid s k e

/-! ## Claim theorems -/

/-- Claim C1: the claim states that every frame built by write_packet carries
num_kv equal to the number of map entries, packs each keyed object into the
body, and has length = envelope + sum of (24 + obj_size).  Evaluating the
embedded write_packet on a one-entry map (PROBEDEVICE with one DEFINITION
object of one byte) shows the emitted num_kv field is 0, not 1, because the
C++ never fills proto_kvpairs, while the length field still reads
36 + (24 + 1) = 61 and the frame is 61 bytes of which the 25-byte data region
was never written. -/
theorem claim_c1_zero_kv_emitted :
    rd32at (write_packet probeCmdBytes [(defKeyBytes, [100])] 9 0).1 32 = 0 ∧
    ([(defKeyBytes, [100])] : List (List Nat × List Nat)).length = 1 ∧
    rd32at (write_packet probeCmdBytes [(defKeyBytes, [100])] 9 0).1 28 = 61 ∧
    (write_packet probeCmdBytes [(defKeyBytes, [100])] 9 0).1.length = 61 := by
  decide

/-- Claim C2: the claim states that encoding a (type, kv map) pair with
write_packet and decoding the bytes with BufferAvailable returns the same
type and the same entries up to key lowercasing.  Evaluating the round trip
on PROBEDEVICE with one DEFINITION object shows the decoder accepts the frame
(same type tag, checksum valid) but returns an EMPTY keyed-object map, because
the encoder emitted num_kv = 0; the expected map holds the definition entry
under its lowercased key. -/
theorem claim_c2_roundtrip_loses_kvs :
    BufferAvailable (write_packet probeCmdBytes [(defKeyBytes, [100])] 3 0).1
      = .frame probeCmdBytes [] ∧
    aget ([(defKeyLowerBytes, [100])] : List (List Nat × List Nat)) defKeyLowerBytes
      = some [100] ∧
    aget ([] : List (List Nat × List Nat)) defKeyLowerBytes = none := by
  decide

/-- Claim C3: the claim states that the decoder reads record k at the offset
equal to the cumulative size of records 0..k-1.  On a well-formed frame with
three records aaa (1 byte), bbb (0 bytes), ccc (1 byte) at data offsets 0, 25
and 49, the decoder extracts records 0 and 1 correctly but, because the C++
assigns data_offt = sizeof(header) + obj_sz instead of accumulating, reads
record 2 at offset 24 + obj_size(record 1) = 24 instead of 49: the decoded map
has no entry for ccc. -/
theorem claim_c3_third_record_misread :
    isFrame (BufferAvailable c3frame) = true ∧
    aget (decodedKvs (BufferAvailable c3frame)) [97, 97, 97] = some [1] ∧
    aget (decodedKvs (BufferAvailable c3frame)) [98, 98, 98] = some [] ∧
    aget (decodedKvs (BufferAvailable c3frame)) [99, 99, 99] = none := by
  decide

/-- Claim C4: the claim states that every registered completion is invoked
exactly once whatever retires the command.  On a controller with two pending
commands (sequence 5 with a probe completion for transaction 11, sequence 9
with an open completion for transaction 22), a controller error runs
cancel_all_commands, which cancels the first command and then accesses the
iterator invalidated by the erase: the run faults with exactly one completion
event in the log and with the second command still registered, its completion
invoked zero times. -/
theorem claim_c4_error_path_drops_second_completion :
    isFaultR (trigger_error stC4 "err") = true ∧
    (stOf (trigger_error stC4 "err")).events = [.cbProbe 11 false "err"] ∧
    (stOf (trigger_error stC4 "err")).command_ack_map = [(9, ⟨22, .openK, -1⟩)] := by
  decide

/-- Claim C5: the claim states that cancel_all_commands terminates leaving the
registry empty and that trigger_error cancels all pending commands before
setting the error flag.  On a registry with two pending commands,
cancel_all_commands faults on the invalidated iterator after retiring only the
smaller sequence: the registry is still non-empty at the fault, and the
faulting trigger_error never reaches the statement that sets source_error. -/
theorem claim_c5_cancel_all_does_not_drain :
    isFaultR (cancel_all_commands stC5 "boom") = true ∧
    (stOf (cancel_all_commands stC5 "boom")).command_ack_map
      = [(8, ⟨2, .listK, -1⟩)] ∧
    (stOf (cancel_all_commands stC5 "boom")).command_ack_map ≠ [] ∧
    (stOf (trigger_error stC5 "boom")).source_error = false := by
  decide

/-- Claim C9: the claim states that every present gps field is stored into the
record field of the same name, in particular that a present fix value becomes
the record fix and that precision equals the decoded precision value.
Evaluating the embedded handle_kv_gps on a map with precision 15 and fix 3
shows the fix value is written into the precision field (line 904 of the
source), leaving precision = 3 instead of 15 and storing fix nowhere. -/
theorem claim_c9_fix_written_into_precision :
    handle_kv_gps [("precision", .num 15), ("fix", .num 3)]
      = some { emptyGps with precision := some 3 } ∧
    some (3 : Int) ≠ some (15 : Int) := by
  decide

/-- Claim C8 counterexample: the claim states that when the most recently
parsed definition carried no uuid option, a received valid uuid object is
adopted.  After opening with wlan0:uuid=c8u1 and then parsing wlan1:name=mon
(whose options tail, shown decoded, holds only a name option), a received
valid uuid c8u2 is NOT adopted: the source UUID remains c8u1, because the
options dictionary is never cleared and the stale uuid option re-marks the
UUID as locally defined. -/
theorem claim_c8_counterexample_stale_uuid_opt :
    validUuid c8u2 = true ∧
    stringToOpts "name=mon" = some [("name", "mon")] ∧
    isOkR (handle_kv_uuid c8st2 c8u2) = true ∧
    (stOf (handle_kv_uuid c8st2 c8u2)).source_uuid = some c8u1 ∧
    c8u1 ≠ c8u2 := by
  decide

/-- Claim C10 counterexample: the claim states that after any parse of a
definition lacking a uuid option, a later wire uuid is adopted even when an
earlier open had supplied a local UUID.  After opening with
wifi0:uuid=c10u1, parsing wifi1:retry=true (an options tail with no uuid
option, shown decoded) still leaves the UUID marked locally defined via the
accumulated options, and the received valid uuid c10u2 is not adopted. -/
theorem claim_c10_counterexample_stale_uuid_opt :
    c10st1.local_uuid = true ∧
    stringToOpts "retry=true" = some [("retry", "true")] ∧
    validUuid c10u2 = true ∧
    isOkR (handle_kv_uuid c10st2 c10u2) = true ∧
    (stOf (handle_kv_uuid c10st2 c10u2)).source_uuid = some c10u1 ∧
    some c10u1 ≠ some c10u2 := by
  decide

/-- Claim C7: calling any public API on a controller whose builder lacks the
corresponding capability invokes the completion synchronously with a failure
(the empty list for list_interfaces, false plus a reason for the others),
emits nothing to the transport, and changes nothing else: the result is
exactly the input state with the single failure callback appended to the
event log. -/
theorem claim_c7_capability_gating (st : Ctrl) (tx : Nat) (defn ch : String)
    (rate : Int) (chans : List String) :
    (st.builder.list_capable = false →
      list_interfaces st tx true = emit st (.cbList tx 0)) ∧
    (st.builder.probe_capable = false →
      probe_interface st defn tx true
        = emit st (.cbProbe tx false "Driver not capable of probing")) ∧
    (st.builder.local_capable = false →
      open_interface st defn tx true
        = emit st (.cbOpen tx false "Driver does not support direct capture")) ∧
    (st.builder.tune_capable = false →
      set_channel st ch tx true
        = emit st (.cbConf tx false "Driver not capable of changing channel")) ∧
    (st.builder.tune_capable = false →
      set_channel_hop st rate chans tx true
        = emit st (.cbConf tx false "Driver not capable of changing channel")) := by
  refine ⟨fun h => ?_, fun h => ?_, fun h => ?_, fun h => ?_, fun h => ?_⟩ <;>
    simp [list_interfaces, probe_interface, open_interface, set_channel,
      set_channel_hop, h]

/-- Witness for claim C7 at a concrete all-incapable controller. -/
theorem claim_c7_witness :
    list_interfaces c7st 3 true = emit c7st (.cbList 3 0) ∧
    probe_interface c7st "wlan0" 4 true
      = emit c7st (.cbProbe 4 false "Driver not capable of probing") ∧
    open_interface c7st "wlan0" 5 true
      = emit c7st (.cbOpen 5 false "Driver does not support direct capture") ∧
    set_channel c7st "6" 6 true
      = emit c7st (.cbConf 6 false "Driver not capable of changing channel") ∧
    set_channel_hop c7st 3 ["1", "6"] 7 true
      = emit c7st (.cbConf 7 false "Driver not capable of changing channel") :=
  ⟨(claim_c7_capability_gating c7st 3 "wlan0" "6" 3 ["1", "6"]).1 rfl,
   (claim_c7_capability_gating c7st 4 "wlan0" "6" 3 ["1", "6"]).2.1 rfl,
   (claim_c7_capability_gating c7st 5 "wlan0" "6" 3 ["1", "6"]).2.2.1 rfl,
   (claim_c7_capability_gating c7st 6 "wlan0" "6" 3 ["1", "6"]).2.2.2.1 rfl,
   (claim_c7_capability_gating c7st 7 "wlan0" "6" 3 ["1", "6"]).2.2.2.2 rfl⟩

/-- Claim C10 amended: every parse_interface_definition call resets the
locally-defined-UUID flag to false before reading options; consequently when
the most recently parsed definition has no options tail at all, the flag is
false after the parse — even when an earlier open had supplied a local UUID —
and a subsequently received valid uuid keyed object is adopted as the source
UUID.  (When the definition does carry an options tail, the uuid option
accumulated from an earlier definition can re-mark the flag, as the C10
counterexample shows, so the no-options-tail condition is necessary.) -/
theorem claim_c10_reset_and_adoption (st : Ctrl) (defn obj : String)
    (hdef : breakAtChar ':' defn.data = none)
    (hobj : validUuid obj = true) :
    (parse_interface_definition st defn).2.local_uuid = false ∧
    handle_kv_uuid (parse_interface_definition st defn).2 obj
      = .ok { (parse_interface_definition st defn).2 with
              source_uuid := some obj } := by
  have hp : parse_interface_definition st defn
      = (true, { st with
                  local_uuid := false,
                  source_interface := defn,
                  source_name := defn }) := by
    unfold parse_interface_definition
    rw [hdef]
  rw [hp]
  refine ⟨rfl, ?_⟩
  unfold handle_kv_uuid
  rw [hobj]
  rfl

/-- Witness for claim C10 at a controller marked locally-UUID-defined by an
earlier open, re-parsed with the optionless definition wlan9. -/
theorem claim_c10_witness :
    (parse_interface_definition c10wst "wlan9").2.local_uuid = false ∧
    handle_kv_uuid (parse_interface_definition c10wst "wlan9").2 c10u2
      = .ok { (parse_interface_definition c10wst "wlan9").2 with
              source_uuid := some c10u2 } :=
  claim_c10_reset_and_adoption c10wst "wlan9" c10u2 (by decide) (by decide)

theorem parse_uuid_found (st : Ctrl) (d : String) (ifc tl : List Char)
    (opts : List (String × String)) (u : String)
    (h1 : breakAtChar ':' d.data = some (ifc, tl))
    (h2 : stringToOpts (String.mk tl) = some opts)
    (hu : aget (optsFold st opts) "uuid" = some u)
    (hv : validUuid u = true) :
    parse_interface_definition st d =
      parseRetryOpt { st with
        local_uuid := true,
        source_interface := String.mk ifc,
        source_definition_opts := optsFold st opts,
        source_name := (aget (optsFold st opts) "name").getD (String.mk ifc),
        source_uuid := some u } := by
  unfold optsFold at hu ⊢
  unfold parse_interface_definition
  rw [h1]
  dsimp only
  rw [h2]
  dsimp only
  rw [hu]
  dsimp only
  rw [hv]
  rfl

theorem parse_uuid_absent (st : Ctrl) (d : String) (ifc tl : List Char)
    (opts : List (String × String))
    (h1 : breakAtChar ':' d.data = some (ifc, tl))
    (h2 : stringToOpts (String.mk tl) = some opts)
    (hu : aget (optsFold st opts) "uuid" = none) :
    parse_interface_definition st d =
      parseRetryOpt { st with
        local_uuid := false,
        source_interface := String.mk ifc,
        source_definition_opts := optsFold st opts,
        source_name := (aget (optsFold st opts) "name").getD (String.mk ifc) } := by
  unfold optsFold at hu ⊢
  unfold parse_interface_definition
  rw [h1]
  dsimp only
  rw [h2]
  dsimp only
  rw [hu]

theorem handle_kv_uuid_adopts (s : Ctrl) (obj : String)
    (hl : s.local_uuid = false) (hv : validUuid obj = true) :
    handle_kv_uuid s obj = .ok { s with source_uuid := some obj } := by
  unfold handle_kv_uuid
  rw [hv, hl]
  rfl

theorem handle_kv_uuid_stOf_keeps (s : Ctrl) (obj : String)
    (hl : s.local_uuid = true) :
    (stOf (handle_kv_uuid s obj)).source_uuid = s.source_uuid := by
  unfold handle_kv_uuid
  by_cases hv : validUuid obj = true
  · rw [hv, hl]
    rfl
  · rw [Bool.not_eq_true] at hv
    rw [hv]
    exact trigger_error_stOf_source_uuid s "unable to parse UUID"

/-- Claim C8 amended, universally over the prior controller state and over
every source definition whose options tail decodes: the definition is
quantified through its decoded tail (hypotheses h1 and h2 name the colon
split and the decoded key=value options).  When the accumulated option
dictionary after the parse holds a valid uuid option — in particular whenever
the definition itself carried one, since its own options are inserted last —
the parse succeeds marking the UUID locally defined and EVERY subsequently
received uuid keyed object leaves the source UUID unchanged, whatever the
outcome of its processing.  When the accumulated dictionary holds no uuid
entry — the definition carried none and no earlier definition left one — the
flag is false after the parse and a received valid uuid object is adopted as
the source UUID. -/
theorem claim_c8_uuid_precedence (st : Ctrl) (defn obj u : String)
    (ifc tl : List Char) (opts : List (String × String))
    (h1 : breakAtChar ':' defn.data = some (ifc, tl))
    (h2 : stringToOpts (String.mk tl) = some opts) :
    (aget (optsFold st opts) "uuid" = some u → validUuid u = true →
      (parse_interface_definition st defn).1 = true ∧
      (parse_interface_definition st defn).2.local_uuid = true ∧
      ∀ obj2,
        (stOf (handle_kv_uuid (parse_interface_definition st defn).2
          obj2)).source_uuid
          = (parse_interface_definition st defn).2.source_uuid) ∧
    (aget (optsFold st opts) "uuid" = none →
      (parse_interface_definition st defn).2.local_uuid = false ∧
      (validUuid obj = true →
        handle_kv_uuid (parse_interface_definition st defn).2 obj
          = .ok { (parse_interface_definition st defn).2 with
                  source_uuid := some obj })) := by
  constructor
  · intro hu hv
    rw [parse_uuid_found st defn ifc tl opts u h1 h2 hu hv]
    refine ⟨parseRetryOpt_fst _, ?_, ?_⟩
    · rw [parseRetryOpt_local_uuid]
    · intro obj2
      exact handle_kv_uuid_stOf_keeps _ obj2 (by rw [parseRetryOpt_local_uuid])
  · intro hu
    rw [parse_uuid_absent st defn ifc tl opts h1 h2 hu]
    refine ⟨?_, ?_⟩
    · rw [parseRetryOpt_local_uuid]
    · intro hv
      exact handle_kv_uuid_adopts _ obj (by rw [parseRetryOpt_local_uuid]) hv

/-- Witness for claim C8: both halves exercised at concrete inputs — a fresh
controller opened with wlan0:uuid=c8u1 keeps c8u1 when the wire offers c8u2,
and a fresh controller parsed with wlan1:name=mon adopts the wire uuid c8u2. -/
theorem claim_c8_witness :
    ((parse_interface_definition baseCtrl c8def1).1 = true ∧
     (parse_interface_definition baseCtrl c8def1).2.local_uuid = true ∧
     (stOf (handle_kv_uuid (parse_interface_definition baseCtrl c8def1).2
        c8u2)).source_uuid
       = (parse_interface_definition baseCtrl c8def1).2.source_uuid) ∧
    ((parse_interface_definition baseCtrl "wlan1:name=mon").2.local_uuid = false ∧
     handle_kv_uuid (parse_interface_definition baseCtrl "wlan1:name=mon").2 c8u2
       = .ok { (parse_interface_definition baseCtrl "wlan1:name=mon").2 with
               source_uuid := some c8u2 }) := by
  have hA := (claim_c8_uuid_precedence baseCtrl c8def1 c8u2 c8u1 "wlan0".data
    "uuid=00000000-0000-0000-0000-000000000001".data [("uuid", c8u1)]
    (by decide) (by decide)).1 (by decide) (by decide)
  have hB := (claim_c8_uuid_precedence baseCtrl "wlan1:name=mon" c8u2 c8u1
    "wlan1".data "name=mon".data [("name", "mon")]
    (by decide) (by decide)).2 (by decide)
  exact ⟨⟨hA.1, hA.2.1, hA.2.2 c8u2⟩, hB.1, hB.2 (by decide)⟩

theorem timers_filter_nil (l : List (Nat × Nat)) (e : Int)
    (hwf : ∀ t ∈ l, (t.1 : Int) = e) :
    l.filter (fun t => decide ((t.1 : Int) ≠ e)) = [] := by
  rw [List.filter_eq_nil_iff]
  intro a ha
  simp [hwf a ha]

theorem timers_nil_of_neg (l : List (Nat × Nat)) (e : Int)
    (hwf : ∀ t ∈ l, (t.1 : Int) = e) (hneg : e < 0) : l = [] := by
  cases l with
  | nil => rfl
  | cons t r =>
      exfalso
      have h1 := hwf t (by simp)
      omega

theorem handle_source_error_timers (s : Ctrl) (hr : s.source_retry = true)
    (hwf : ∀ t ∈ s.timers, (t.1 : Int) = s.error_timer_id)
    (hne : s.error_timer_id ≠ 0) :
    (handle_source_error s).timers = [(s.next_timer_id, 5)] := by
  unfold handle_source_error emit removeTimer
  dsimp only
  split
  · rename_i h
    rw [hr] at h
    exact absurd h (by decide)
  · dsimp only
    split
    · rw [timers_filter_nil s.timers s.error_timer_id hwf]
      rfl
    · rename_i hng
      have hneg : s.error_timer_id < 0 := by omega
      rw [timers_nil_of_neg s.timers s.error_timer_id hwf hneg]
      rfl

theorem handle_source_error_etid (s : Ctrl) (hr : s.source_retry = true) :
    (handle_source_error s).error_timer_id = (s.next_timer_id : Int) := by
  unfold handle_source_error emit removeTimer
  dsimp only
  split
  · rename_i h
    rw [hr] at h
    exact absurd h (by decide)
  · dsimp only
    split <;> rfl

theorem handle_source_error_attempts (s : Ctrl) (hr : s.source_retry = true) :
    (handle_source_error s).source_retry_attempts
      = s.source_retry_attempts + 1 := by
  unfold handle_source_error emit removeTimer
  dsimp only
  split
  · rename_i h
    rw [hr] at h
    exact absurd h (by decide)
  · dsimp only
    split <;> rfl

theorem handle_source_error_source_definition (s : Ctrl) :
    (handle_source_error s).source_definition = s.source_definition := by
  unfold handle_source_error emit removeTimer
  dsimp only
  split
  · rfl
  · dsimp only
    split <;> rfl

theorem handle_source_error_builder (s : Ctrl) :
    (handle_source_error s).builder = s.builder := by
  unfold handle_source_error emit removeTimer
  dsimp only
  split
  · rfl
  · dsimp only
    split <;> rfl

theorem open_interface_timers (s : Ctrl) (d : String) (tx : Nat) (b : Bool)
    (hloc : s.builder.local_capable = true) :
    (open_interface s d tx b).timers =
      (if s.error_timer_id > 0 then removeTimer s s.error_timer_id else s).timers := by
  unfold open_interface
  rw [hloc]
  rw [if_neg (by decide)]
  dsimp only
  generalize (if s.error_timer_id > 0 then removeTimer s s.error_timer_id else s) = s1
  cases hp : parse_interface_definition s1 d with
  | mk ok s2 =>
      have ht : s2.timers = s1.timers := by
        have h0 := parse_interface_definition_timers s1 d
        rw [hp] at h0
        exact h0
      cases ok with
      | false =>
          dsimp only
          split <;> exact ht
      | true =>
          dsimp only
          rw [send_command_open_interface_timers]
          exact ht

/-- Claim C6 counterexample: the claim says EVERY invocation of trigger_error
on a retry-enabled controller results in exactly one reopen timer being
scheduled at 5 seconds.  On a retry-enabled controller with one pending
command, the registry drain inside trigger_error faults on the invalidated
iterator (the C4/C5 slip) before the error flag is set and before the retry
handler can run: the run faults with no timer scheduled and the retry counter
not incremented. -/
theorem claim_c6_counterexample_pending_command :
    c6xst.source_retry = true ∧
    c6xst.command_ack_map ≠ [] ∧
    isFaultR (trigger_error c6xst "gone") = true ∧
    (stOf (trigger_error c6xst "gone")).timers = [] ∧
    (stOf (trigger_error c6xst "gone")).source_retry_attempts = 0 := by
  decide

/-- Claim C6 amended: on a retry-enabled controller whose pending-command
registry is empty when the error fires, every invocation of trigger_error
schedules exactly one reopen timer at 5 seconds, increments retry_attempts by
one, and keeps the stored source definition so that the timer callback
re-invokes open_interface on it; a subsequent explicit open_interface call
removes the pending timer.  The call linking trigger_error to
handle_source_error is modelled from the spec (section 4.5).  The
empty-registry condition is forced by the counterexample: with commands
pending, the drain inside trigger_error faults on the invalidated iterator
(claims C4 and C5) and no reopen is ever scheduled. -/
theorem claim_c6_retry_schedules_one_reopen (st : Ctrl) (err defn2 : String)
    (tx : Nat)
    (hretry : st.source_retry = true)
    (hpend : st.command_ack_map = [])
    (hwf : ∀ t ∈ st.timers, (t.1 : Int) = st.error_timer_id)
    (hne : st.error_timer_id ≠ 0)
    (hid : 1 ≤ st.next_timer_id)
    (hloc : st.builder.local_capable = true) :
    isOkR (trigger_error st err) = true ∧
    (stOf (trigger_error st err)).timers = [(st.next_timer_id, 5)] ∧
    (stOf (trigger_error st err)).error_timer_id = (st.next_timer_id : Int) ∧
    (stOf (trigger_error st err)).source_retry_attempts
      = st.source_retry_attempts + 1 ∧
    (stOf (trigger_error st err)).source_definition = st.source_definition ∧
    fire_reopen (stOf (trigger_error st err))
      = open_interface (stOf (trigger_error st err)) st.source_definition 0 false ∧
    (open_interface (stOf (trigger_error st err)) defn2 tx true).timers = [] := by
  have hca : cancel_all_commands st err = .ok st := by
    unfold cancel_all_commands
    rw [hpend]
    rfl
  set s3 : Ctrl :=
    { (if st.has_ringbuf then emit st (.transportError err) else st) with
      source_error := true, source_error_reason := err } with hs3
  have hTE : trigger_error st err = .ok (handle_source_error s3) := by
    unfold trigger_error trigger_error_core
    rw [hca]
  have eproj : s3.source_retry = st.source_retry ∧ s3.timers = st.timers ∧
      s3.error_timer_id = st.error_timer_id ∧
      s3.next_timer_id = st.next_timer_id ∧
      s3.source_retry_attempts = st.source_retry_attempts ∧
      s3.source_definition = st.source_definition ∧ s3.builder = st.builder := by
    rw [hs3]
    unfold emit
    refine ⟨?_, ?_, ?_, ?_, ?_, ?_, ?_⟩ <;> (split <;> rfl)
  obtain ⟨e1, e2, e3, e4, e5, e6, e7⟩ := eproj
  have hr3 : s3.source_retry = true := by rw [e1]; exact hretry
  have hwf3 : ∀ t ∈ s3.timers, (t.1 : Int) = s3.error_timer_id := by
    rw [e2, e3]; exact hwf
  have hne3 : s3.error_timer_id ≠ 0 := by rw [e3]; exact hne
  have ht := handle_source_error_timers s3 hr3 hwf3 hne3
  have hetid := handle_source_error_etid s3 hr3
  have hatt := handle_source_error_attempts s3 hr3
  have hdef := handle_source_error_source_definition s3
  have hbld := handle_source_error_builder s3
  rw [hTE]
  dsimp only [stOf, isOkR]
  refine ⟨rfl, ?_, ?_, ?_, ?_, ?_, ?_⟩
  · rw [ht, e4]
  · rw [hetid, e4]
  · rw [hatt, e5]
  · rw [hdef, e6]
  · unfold fire_reopen
    rw [hdef, e6]
  · have hloc2 : (handle_source_error s3).builder.local_capable = true := by
      rw [hbld, e7]; exact hloc
    rw [open_interface_timers _ defn2 tx true hloc2]
    rw [if_pos (by rw [hetid, e4]; omega : (handle_source_error s3).error_timer_id > 0)]
    unfold removeTimer
    dsimp only
    rw [ht, hetid, e4]
    simp

/-- Witness for claim C6 at a fresh retry-enabled controller with no pending
commands and no live timer. -/
theorem claim_c6_witness :
    isOkR (trigger_error c6st "card unplugged") = true ∧
    (stOf (trigger_error c6st "card unplugged")).timers = [(1, 5)] ∧
    (stOf (trigger_error c6st "card unplugged")).error_timer_id = (1 : Int) ∧
    (stOf (trigger_error c6st "card unplugged")).source_retry_attempts = 0 + 1 ∧
    (stOf (trigger_error c6st "card unplugged")).source_definition = "" ∧
    fire_reopen (stOf (trigger_error c6st "card unplugged"))
      = open_interface (stOf (trigger_error c6st "card unplugged")) "" 0 false ∧
    (open_interface (stOf (trigger_error c6st "card unplugged"))
      "wlan0" 9 true).timers = [] := by
  have h := claim_c6_retry_schedules_one_reopen c6st "card unplugged" "wlan0" 9
    rfl rfl (by simp [c6st, baseCtrl]) (by decide) (by decide) rfl
  exact h

end Kismet
